import Mathlib

/-!
Verification development for the crypto-ai-trader position sizing and trade
execution engine.  The Python sources are embedded shallowly: pure arithmetic
is modelled over `ℚ` (the source uses IEEE floats; all claims here concern the
exact real-valued arithmetic the source expresses), dictionaries become
structures, and the exchange collaborator's responses become explicit inputs.
-/

/-- Amount precision data returned by `get_symbol_amount_precision` in
`market_utils.py`: `precision` is the int-like decimal-place count (Python
values that are not int-like take the `none` branch of the final fallback),
and `step` is the resolved quantity step (explicit `amountIncrement`/`lot`, or
`10 ** (-precision)` derived by `get_symbol_contract_specs`). -/
structure AmountSpec where
  precision : Option ℤ
  step : Option ℚ
  deriving DecidableEq

/-- Embedding of `adjust_contract_quantity` (`market_utils.py` lines 519-548)
on the fallback path where the exchange's own `amount_to_precision` is
unavailable: optional ceiling to the step when `round_up`, then the
decimal-place adjustment driven by an int-like `precision`.  Python's
`if round_up and step:` treats a `0` step as falsy, hence the inner test. -/
def adjust_contract_quantity (spec : AmountSpec) (contracts : ℚ) (round_up : Bool) : ℚ :=
  let a1 :=
    if round_up then
      match spec.step with
      | some s => if s = 0 then ((⌈contracts⌉ : ℤ) : ℚ) else ((⌈contracts / s⌉ : ℤ) : ℚ) * s
      | none => ((⌈contracts⌉ : ℤ) : ℚ)
    else contracts
  match spec.precision with
  | some p =>
      let f : ℚ := (10 : ℚ) ^ p
      if round_up then ((⌈a1 * f⌉ : ℤ) : ℚ) / f else ((⌊a1 * f⌋ : ℤ) : ℚ) / f
  | none => a1

/-- `base_to_contracts` (`market_utils.py` lines 501-507): base quantity to
contract count; a zero contract size falls back to `1.0` exactly as in the
source. -/
def base_to_contracts (contract_size base_quantity : ℚ) : ℚ :=
  base_quantity / (if contract_size = 0 then 1 else contract_size)

/-- `contracts_to_base` (`market_utils.py` lines 510-516). -/
def contracts_to_base (contract_size contracts : ℚ) : ℚ :=
  contracts * (if contract_size = 0 then 1 else contract_size)

/-- Confidence tiers iterated by the sizing loop in `analyze_with_llm`. -/
inductive Conf where
  | HIGH
  | MEDIUM
  | LOW
  deriving DecidableEq

/-- `CONFIDENCE_RATIOS` from `config/settings.py` lines 93-97. -/
def CONFIDENCE_RATIOS : Conf → ℚ
  | .HIGH => 30 / 100
  | .MEDIUM => 20 / 100
  | .LOW => 5 / 100

/-- Per-symbol data feeding the sizing loop of `analyze_with_llm`
(`ai_analysis.py` lines 155-165): resolved balance, price, and the contract
specs returned by `get_symbol_contract_specs` / `get_symbol_min_amount`. -/
structure SizingInput where
  available_balance : ℚ
  current_price : ℚ
  contract_size : ℚ
  min_contracts : ℚ
  min_quantity : ℚ
  spec : AmountSpec
  deriving DecidableEq

/-- One entry of the `position_suggestions` dict built by `analyze_with_llm`
(`ai_analysis.py` lines 170-201). -/
structure Suggestion where
  quantity : ℚ
  contracts : ℚ
  value : ℚ
  margin : ℚ
  meets_min : Bool
  meets_margin : Bool
  meets : Bool
  deriving DecidableEq

/-- `max_usable_margin = available_balance * 0.8` (`ai_analysis.py` line 157). -/
def maxUsableMarginAnalysis (available_balance : ℚ) : ℚ :=
  available_balance * (8 / 10)

/-- The body of the sizing loop in `analyze_with_llm` (`ai_analysis.py` lines
170-201) for one `(confidence ratio, leverage)` pair.  Python truthiness tests
(`if current_price`, `if min_contracts`, `if lev`, `if max_usable_margin`)
become `≠ 0` tests. -/
def positionSuggestion (inp : SizingInput) (ratio lev : ℚ) : Suggestion :=
  let max_usable_margin := maxUsableMarginAnalysis inp.available_balance
  let target_margin := max_usable_margin * ratio
  let raw_quantity := if inp.current_price ≠ 0 then target_margin * lev / inp.current_price else 0
  let base_quantity := max raw_quantity inp.min_quantity
  let contracts0 := base_to_contracts inp.contract_size base_quantity
  let contracts1 := if inp.min_contracts ≠ 0 then max contracts0 inp.min_contracts else contracts0
  let adjusted_contracts := adjust_contract_quantity inp.spec contracts1 true
  let adjusted_quantity := contracts_to_base inp.contract_size adjusted_contracts
  let adjusted_margin := if lev ≠ 0 then adjusted_quantity * inp.current_price / lev else 0
  let meets_min := decide (adjusted_contracts ≥ (if inp.min_contracts ≠ 0 then inp.min_contracts else 0))
  let meets_margin := if max_usable_margin ≠ 0 then decide (adjusted_margin ≤ max_usable_margin) else true
  { quantity := adjusted_quantity
    contracts := adjusted_contracts
    value := adjusted_quantity * inp.current_price
    margin := adjusted_margin
    meets_min := meets_min
    meets_margin := meets_margin
    meets := meets_min && meets_margin }

/-- Python's `str.upper()` restricted to the ASCII signal vocabulary the
program compares against (`BUY`/`SELL`/`HOLD`/`CLOSE`/confidence tiers). -/
def upperStr (s : String) : String := String.mk (s.data.map Char.toUpper)

/-- The signal-dict fields of this program that the embedded operations read
(`signal_data` in `ai_analysis.py` / `deepseekok2.py`). -/
structure SignalData where
  signal : Option String
  confidence : Option String
  leverage : Option ℤ
  reason : String
  stop_loss : ℚ
  take_profit : ℚ
  order_quantity : ℚ
  is_insufficient_balance : Bool
  deriving DecidableEq

/-- One record of `signal_history[symbol]` as built by `append_signal_record`
(`deepseekok2.py` lines 256-269); the validation fields start out `None`. -/
structure SignalRecord where
  timestamp : String
  signal : String
  confidence : String
  leverage : Option ℤ
  entry_price : ℚ
  validation_price : Option ℚ
  reason : String
  stop_loss : ℚ
  take_profit : ℚ
  deriving DecidableEq

/-- The record literal constructed inside `append_signal_record`
(`deepseekok2.py` lines 256-269): signal upper-cased, confidence defaulted to
`"MEDIUM"` and upper-cased. -/
def mkSignalRecord (d : SignalData) (entry_price : ℚ) (ts : String) : SignalRecord :=
  { timestamp := ts
    signal := upperStr (d.signal.getD "")
    confidence := upperStr (d.confidence.getD "MEDIUM")
    leverage := d.leverage
    entry_price := entry_price
    validation_price := none
    reason := d.reason
    stop_loss := d.stop_loss
    take_profit := d.take_profit }

/-- `append_signal_record` (`deepseekok2.py` lines 253-274): append the new
record, pop the oldest entry once the history exceeds 200, and publish the
last 100 records as the web view's `analysis_records`.  Returns
`(record, new history, analysis_records)`. -/
def append_signal_record (history : List SignalRecord) (d : SignalData) (entry_price : ℚ)
    (ts : String) : SignalRecord × List SignalRecord × List SignalRecord :=
  let record := mkSignalRecord d entry_price ts
  let h1 := history ++ [record]
  let h2 := if 200 < h1.length then h1.drop 1 else h1
  (record, h2, h2.drop (h2.length - 100))

/-- `HOLD_TOLERANCE` from `config/settings.py` line 90. -/
def HOLD_TOLERANCE : ℚ := 5 / 10

/-- `evaluate_signal_result` (`deepseekok2.py` lines 221-229): the signal is
defaulted to the empty string and upper-cased before dispatch. -/
def evaluate_signal_result (signal : Option String) (price_change_pct : ℚ) : Bool :=
  let s := upperStr (signal.getD "")
  if s = "BUY" then decide (price_change_pct ≥ 0)
  else if s = "SELL" then decide (price_change_pct ≤ 0)
  else if s = "HOLD" then decide (|price_change_pct| ≤ HOLD_TOLERANCE)
  else false

/-- The leverage bounds of one entry of `TRADE_CONFIGS`
(`config/settings.py` lines 122-150). -/
structure LevConfig where
  leverage_min : ℤ
  leverage_max : ℤ
  leverage_default : ℤ
  deriving DecidableEq

/-- The `leverage` field of an AI signal dict as seen by
`validate_and_correct_leverage`: absent (`None`), present but failing Python's
`int()` conversion, or convertible to the integer `z`. -/
inductive LevValue where
  | missing
  | bad
  | val (z : ℤ)
  deriving DecidableEq

/-- `validate_and_correct_leverage` (`ai_analysis.py` lines 53-94): a missing
or non-convertible leverage becomes the default; an out-of-range integer is
clamped by `max(leverage_min, min(leverage, leverage_max))`. -/
def validate_and_correct_leverage (lv : LevValue) (c : LevConfig) : ℤ :=
  match lv with
  | .missing => c.leverage_default
  | .bad => c.leverage_default
  | .val z =>
      if z < c.leverage_min ∨ c.leverage_max < z then
        max c.leverage_min (min z c.leverage_max)
      else z

/-- Inputs of the pre-decision stage of `analyze_with_llm`
(`ai_analysis.py` lines 128-234): the resolved balance, price snapshot,
contract specs and per-symbol leverage configuration, plus the symbol's
current signal history. -/
structure AnalyzeInput where
  available_balance : ℚ
  price : ℚ
  timestamp : String
  contract_size : ℚ
  min_contracts : ℚ
  min_quantity : ℚ
  spec : AmountSpec
  leverage_min : ℤ
  leverage_default : ℤ
  leverage_max : ℤ
  history : List SignalRecord
  deriving DecidableEq

def sizingInputOf (a : AnalyzeInput) : SizingInput :=
  { available_balance := a.available_balance
    current_price := a.price
    contract_size := a.contract_size
    min_contracts := a.min_contracts
    min_quantity := a.min_quantity
    spec := a.spec }

/-- `leverage_list = [leverage_min, leverage_default, leverage_max]`
(`ai_analysis.py` line 165). -/
def leverageList (a : AnalyzeInput) : List ℚ :=
  [(a.leverage_min : ℚ), (a.leverage_default : ℚ), (a.leverage_max : ℚ)]

/-- `can_trade = any(pos.get("meets") for pos in position_suggestions.values())`
(`ai_analysis.py` line 203), over the full tier × leverage matrix. -/
def canTrade (a : AnalyzeInput) : Bool :=
  [Conf.HIGH, Conf.MEDIUM, Conf.LOW].any fun c =>
    (leverageList a).any fun lev =>
      (positionSuggestion (sizingInputOf a) (CONFIDENCE_RATIOS c) lev).meets

/-- The `fallback_signal` built on the insufficient-balance path of
`analyze_with_llm` (`ai_analysis.py` lines 219-229).  Its `reason` is the
insufficient-balance message (the Chinese f-string of the source is
abstracted to a fixed marker since no claim inspects its text). -/
def insufficientBalanceSignal (a : AnalyzeInput) : SignalData :=
  { signal := some "HOLD"
    confidence := some "LOW"
    leverage := some a.leverage_default
    reason := "insufficient balance"
    stop_loss := a.price * (98 / 100)
    take_profit := a.price * (102 / 100)
    order_quantity := 0
    is_insufficient_balance := true }

/-- Result of the pre-decision stage of `analyze_with_llm`: either the
insufficient-balance short circuit (`llmCalled = false`, a HOLD fallback
recorded through `append_signal_record`), or a marker that the stage fell
through to the language-model call (`llmCalled = true`; everything past the
`can_trade` test is outside this stage's scope). -/
structure AnalyzeOutcome where
  llmCalled : Bool
  signal : Option SignalData
  history : List SignalRecord
  webRecords : List SignalRecord
  deriving DecidableEq

/-- The `can_trade` branch of `analyze_with_llm` (`ai_analysis.py` lines
203-234): when no combination is feasible the function appends the fallback
HOLD signal via `append_signal_record` and returns it without ever reaching
the `ai_client` call at line 289. -/
def analyzeSizingStage (a : AnalyzeInput) : AnalyzeOutcome :=
  if canTrade a then
    { llmCalled := true, signal := none, history := a.history, webRecords := [] }
  else
    let fb := insufficientBalanceSignal a
    let r := append_signal_record a.history fb a.price a.timestamp
    { llmCalled := false, signal := some fb, history := r.2.1, webRecords := r.2.2 }

/-- Position side as reported by `get_current_position`. -/
inductive Side where
  | long
  | short
  deriving DecidableEq

/-- Direction of a `create_market_order` call. -/
inductive OrderSide where
  | buy
  | sell
  deriving DecidableEq

/-- One `exchange.create_market_order` call issued by `execute_trade`. -/
structure Order where
  side : OrderSide
  contracts : ℚ
  reduceOnly : Bool
  deriving DecidableEq

/-- The USDT detail entry parsed out of an OKX balance response
(`availBal`, `eq`, `imr`). -/
structure Snapshot where
  availBal : ℚ
  eq : ℚ
  imr : ℚ
  deriving DecidableEq

/-- The fields of `get_current_position`'s result that `execute_trade` reads. -/
structure Position where
  side : Side
  size : ℚ
  leverage : ℚ
  deriving DecidableEq

/-- Exit point of the embedded `execute_trade` control flow. -/
inductive ExitTag where
  | hardCooldown
  | softCooldown
  | whipsaw
  | closeNoPosition
  | closeLowConfidence
  | closeTestMode
  | closeZeroSize
  | closed
  | holdSignal
  | lowConfidence
  | testMode
  | zeroBalance
  | belowMinAbort
  | precisionAbort
  | firstCheckAbort
  | secondCheckAbort
  | submitted
  deriving DecidableEq

/-- Result of one `execute_trade` run: where it exited, the market orders it
issued, and (when the submission stage was reached) the final contract count,
its required margin, and the second snapshot's usable margin. -/
structure ExecOutcome where
  tag : ExitTag
  orders : List Order
  tradeContracts : ℚ
  requiredMargin : ℚ
  freshMargin : ℚ
  deriving DecidableEq

/-- All inputs of one `execute_trade` call (`deepseekok2.py` lines 442-1044):
the signal dict fields it reads, the fresh position, the last trade-history
entry (as minutes elapsed and its side), the per-symbol configuration, the
two balance fetches, and the contract specs.  Exchange calls are modelled as
these pre-fetched values; order submission and `set_leverage` are modelled as
succeeding on the first attempt. -/
structure ExecInput where
  signal : String
  confidence : String
  leverage : Option ℚ
  order_value : ℚ
  order_quantity : ℚ
  position : Option Position
  minutesSinceLast : Option ℚ
  lastTradeSide : Option Side
  testMode : Bool
  enableAdd : Bool
  leverageDefault : ℚ
  usdtBalance : ℚ
  firstDetails : Option Snapshot
  freshUsdt : ℚ
  freshDetails : Option Snapshot
  price : ℚ
  contractSize : ℚ
  rawMinContracts : ℚ
  symbolMinAmount : ℚ
  spec : AmountSpec
  deriving DecidableEq

/-- `MAX_TOTAL_MARGIN_RATIO` (`config/settings.py` line 100). -/
def MAX_TOTAL_MARGIN_RATIO : ℚ := 85 / 100

/-- `MARGIN_SAFETY_BUFFER` (`config/settings.py` line 101). -/
def MARGIN_SAFETY_BUFFER : ℚ := 90 / 100

/-- The usable-margin computation of `execute_trade`, applied identically to
the first snapshot (`deepseekok2.py` lines 638-670) and the fresh snapshot
(lines 764-804): `min(availBal, eq * 0.85 - imr) * 0.90`, falling back to
`usdt * 0.35` when the USDT detail entry is absent. -/
def usableMargin (details : Option Snapshot) (usdt : ℚ) : ℚ :=
  match details with
  | some d => min d.availBal (d.eq * MAX_TOTAL_MARGIN_RATIO - d.imr) * MARGIN_SAFETY_BUFFER
  | none => usdt * (35 / 100)

/-- `CONFIDENCE_RATIOS.get(confidence, 0.10)` (`deepseekok2.py` line 674). -/
def confRatioExec (confidence : String) : ℚ :=
  if confidence = "HIGH" then 30 / 100
  else if confidence = "MEDIUM" then 20 / 100
  else if confidence = "LOW" then 5 / 100
  else 10 / 100

/-- The unified trade-protection block of `execute_trade`
(`deepseekok2.py` lines 449-475): the hard and soft cooldowns (applied to all
non-HOLD signals, CLOSE included, per the source comment at line 455) and the
anti-whipsaw reversal check.  `none` means no guard fired. -/
def guardReject (i : ExecInput) : Option ExitTag :=
  if i.signal = "HOLD" then none
  else
    match i.minutesSinceLast with
    | none => none
    | some dt =>
        if dt < 10 then some .hardCooldown
        else if dt < 20 ∧ i.confidence ≠ "HIGH" then some .softCooldown
        else if i.signal = "BUY" ∨ i.signal = "SELL" then
          match i.position with
          | some pos =>
              if (if i.signal = "BUY" then Side.long else Side.short) ≠ pos.side ∧
                  i.lastTradeSide = some (if i.signal = "BUY" then Side.long else Side.short) ∧
                  dt < 30 then
                some .whipsaw
              else none
          | none => none
        else none

/-- The CLOSE branch of `execute_trade` (`deepseekok2.py` lines 485-563):
requires a position, HIGH confidence and live mode, then issues one
reduce-only market order for the full position size, directed opposite to the
held side. -/
def closePath (i : ExecInput) : ExecOutcome :=
  match i.position with
  | none => ⟨.closeNoPosition, [], 0, 0, 0⟩
  | some pos =>
      if i.confidence ≠ "HIGH" then ⟨.closeLowConfidence, [], 0, 0, 0⟩
      else if i.testMode then ⟨.closeTestMode, [], 0, 0, 0⟩
      else if pos.size ≤ 0 then ⟨.closeZeroSize, [], 0, 0, 0⟩
      else
        let oside := if pos.side = Side.short then OrderSide.buy else OrderSide.sell
        ⟨.closed, [⟨oside, pos.size, true⟩], 0, 0, 0⟩

/-- The order-submission matrix of `execute_trade` (`deepseekok2.py` lines
857-951), on the first (successful) attempt of the retry loop: reversal emits
a reduce-only close of the full held size followed by the opening order;
same-side signals add only when enabled, HIGH-confidence and under the
position-value cap; otherwise no order is sent. -/
def submitPhase (i : ExecInput) (lev mum freshM tc req : ℚ) : ExecOutcome :=
  let ta := contracts_to_base i.contractSize tc
  let orders : List Order :=
    if i.signal = "BUY" then
      match i.position with
      | some pos =>
          if pos.side = Side.short then
            [⟨.buy, pos.size, true⟩, ⟨.buy, tc, false⟩]
          else if i.enableAdd ∧ i.confidence = "HIGH" then
            let currentValue := contracts_to_base i.contractSize pos.size * i.price
            let addValue := ta * i.price
            if currentValue + addValue ≤ mum * lev then [⟨.buy, tc, false⟩] else []
          else []
      | none => [⟨.buy, tc, false⟩]
    else if i.signal = "SELL" then
      match i.position with
      | some pos =>
          if pos.side = Side.long then
            [⟨.sell, pos.size, true⟩, ⟨.sell, tc, false⟩]
          else if i.enableAdd ∧ i.confidence = "HIGH" then
            let currentValue := contracts_to_base i.contractSize pos.size * i.price
            let addValue := ta * i.price
            if currentValue + addValue ≤ mum * lev then [⟨.sell, tc, false⟩] else []
          else []
      | none => [⟨.sell, tc, false⟩]
    else []
  ⟨.submitted, orders, tc, req, freshM⟩

/-- The pre-submission real-time re-validation of `execute_trade`
(`deepseekok2.py` lines 755-828): recompute usable margin from the freshly
fetched balance; if the pending margin exceeds it, rebuild the contract count
from 95% of the fresh margin, floor it at `min_contracts`, re-normalize, and
either proceed with that quantity or abandon the trade. -/
def secondPhase (i : ExecInput) (lev minC minQ mum tc req : ℚ) : ExecOutcome :=
  let freshM := usableMargin i.freshDetails i.freshUsdt
  if freshM < req then
    let fc0 := base_to_contracts i.contractSize
      (if i.price ≠ 0 then freshM * (95 / 100) * lev / i.price else 0)
    let fc := adjust_contract_quantity i.spec (max fc0 minC) true
    let fa := contracts_to_base i.contractSize fc
    if minC ≤ fc ∧ minQ ≤ fa then
      submitPhase i lev mum freshM fc (i.price * fa / lev)
    else ⟨.secondCheckAbort, [], 0, req, freshM⟩
  else submitPhase i lev mum freshM tc req

/-- `execute_trade` from the precision normalization at line 715 through the
first margin check (`deepseekok2.py` lines 715-753): normalize the pending
count, re-test the minimum, compute the required margin, and on a first-check
failure attempt the 95%-discount downsize before handing over to the
second-phase re-validation. -/
def afterMinFloor (i : ExecInput) (lev minC minQ mum tc1 : ℚ) : ExecOutcome :=
  let tc2 := adjust_contract_quantity i.spec (max tc1 minC) true
  let ta2 := contracts_to_base i.contractSize tc2
  if minC ≠ 0 ∧ tc2 < minC then ⟨.precisionAbort, [], 0, 0, 0⟩
  else
    let req := i.price * ta2 / lev
    if mum < req then
      let ac0 := base_to_contracts i.contractSize
        (if i.price ≠ 0 then mum * (95 / 100) * lev / i.price else 0)
      let ac := adjust_contract_quantity i.spec (max ac0 minC) true
      let aa := contracts_to_base i.contractSize ac
      if minC ≤ ac ∧ minQ ≤ aa then
        secondPhase i lev minC minQ mum ac (i.price * aa / lev)
      else ⟨.firstCheckAbort, [], 0, 0, 0⟩
    else secondPhase i lev minC minQ mum tc2 req

/-- The live-trading pipeline of `execute_trade` (`deepseekok2.py` lines
578-714): balance gate, spec resolution, expected-position sizing from the
confidence ratio, reconciliation with the AI-supplied quantity/value, and the
minimum-contract floor with its affordability test. -/
def mainPath (i : ExecInput) : ExecOutcome :=
  if i.usdtBalance ≤ 0 then ⟨.zeroBalance, [], 0, 0, 0⟩
  else
    let lev := i.leverage.getD i.leverageDefault
    let minC :=
      if 0 < i.rawMinContracts then adjust_contract_quantity i.spec i.rawMinContracts true
      else i.rawMinContracts
    let minQ := if minC ≠ 0 then contracts_to_base i.contractSize minC else i.symbolMinAmount
    let mum := usableMargin i.firstDetails i.usdtBalance
    let ratio := confRatioExec i.confidence
    let margin_pool := mum * ratio
    let expectedValue := margin_pool * lev
    let expectedQty0 := if i.price ≠ 0 then expectedValue / i.price else 0
    let expectedC0 := base_to_contracts i.contractSize expectedQty0
    let expectedC :=
      if i.price ≠ 0 then adjust_contract_quantity i.spec (max expectedC0 minC) true else minC
    let expectedQty := contracts_to_base i.contractSize expectedC
    let tc0 :=
      if 0 < i.order_quantity then
        let t := base_to_contracts i.contractSize i.order_quantity
        let ta := contracts_to_base i.contractSize t
        if 0 < expectedQty ∧ (ta < expectedQty * (8 / 10) ∨ expectedQty * (12 / 10) < ta) then
          expectedC
        else t
      else if 0 < i.order_value then
        base_to_contracts i.contractSize (if i.price ≠ 0 then i.order_value / i.price else 0)
      else expectedC
    if minC ≠ 0 ∧ tc0 < minC then
      let testMargin :=
        if i.price ≠ 0 then i.price * contracts_to_base i.contractSize minC / lev else 0
      if testMargin ≤ mum then afterMinFloor i lev minC minQ mum minC
      else ⟨.belowMinAbort, [], 0, 0, 0⟩
    else afterMinFloor i lev minC minQ mum tc0

/-- `execute_trade` (`deepseekok2.py` lines 442-1044): guard block, CLOSE and
HOLD dispatch (on the upper-cased signal), the low-confidence and test-mode
gates, then the live pipeline. -/
def execute_trade (i : ExecInput) : ExecOutcome :=
  match guardReject i with
  | some t => ⟨t, [], 0, 0, 0⟩
  | none =>
      if upperStr i.signal = "CLOSE" then closePath i
      else if upperStr i.signal = "HOLD" then ⟨.holdSignal, [], 0, 0, 0⟩
      else if i.confidence = "LOW" ∧ i.testMode = false then ⟨.lowConfidence, [], 0, 0, 0⟩
      else if i.testMode then ⟨.testMode, [], 0, 0, 0⟩
      else mainPath i

/-- A contract count is in the image of the round-up normalizer for the given
spec: the exchange-precision form in which `execute_trade` submits
quantities. -/
def isAdjustImage (spec : AmountSpec) (c : ℚ) : Prop :=
  ∃ y, c = adjust_contract_quantity spec y true

/-- A concrete signal dict used to instantiate hypotheses of the
history-bound theorem. -/
def sampleSignalData : SignalData :=
  { signal := some "BUY", confidence := some "HIGH", leverage := some 2
    reason := "r", stop_loss := 1, take_profit := 2, order_quantity := 0
    is_insufficient_balance := false }

/-- Integer quantity step of 1 contract with no decimal-place precision. -/
def specStep1 : AmountSpec := ⟨none, some 1⟩

/-- The sizing input of the spec's worked example: `min_contracts = 1`,
`contract_size = 0.01`, `step = 1`, `price = 3000`, `available_balance =
1000`. -/
def inpC2 : SizingInput :=
  { available_balance := 1000, current_price := 3000, contract_size := 1 / 100
    min_contracts := 1, min_quantity := 1 / 100, spec := specStep1 }

/-- A market spec whose explicit step (0.25) is not aligned to its
decimal-place precision (1 decimal): possible exchange metadata under which
round-up normalization moves values already in its own image. -/
def specMis : AmountSpec := ⟨some 1, some (1 / 4)⟩

/-- A step-aligned spec (step 0.01, precision 2) used to instantiate the
idempotence theorem. -/
def specAligned : AmountSpec := ⟨some 2, some (1 / 100)⟩

def inpC4 : AnalyzeInput :=
  { available_balance := 1, price := 3000, timestamp := "t"
    contract_size := 1 / 100, min_contracts := 1, min_quantity := 1 / 100, spec := specStep1
    leverage_min := 1, leverage_default := 2, leverage_max := 3, history := [] }

def baseExecInput : ExecInput :=
  { signal := "BUY", confidence := "HIGH", leverage := some 2, order_value := 0
    order_quantity := 0, position := none, minutesSinceLast := none, lastTradeSide := none
    testMode := false, enableAdd := false, leverageDefault := 2, usdtBalance := 1000
    firstDetails := some ⟨1000, 1000, 0⟩, freshUsdt := 1000
    freshDetails := some ⟨1000, 1000, 0⟩, price := 3000, contractSize := 1 / 100
    rawMinContracts := 1, symbolMinAmount := 1 / 100, spec := specStep1 }

def execInputC3 : ExecInput :=
  { baseExecInput with signal := "CLOSE", position := some ⟨.long, 5, 2⟩
                       minutesSinceLast := some 5 }

def execInputC7 : ExecInput :=
  { baseExecInput with signal := "CLOSE", confidence := "MEDIUM"
                       position := some ⟨.long, 5, 2⟩ }

def execInputC5 : ExecInput :=
  { baseExecInput with position := some ⟨.short, 3, 2⟩ }

def execInputC1 : ExecInput :=
  { baseExecInput with usdtBalance := 100, firstDetails := some ⟨100, 100, 0⟩
                       freshUsdt := 1, freshDetails := some ⟨1, 1, 0⟩ }

/-- C9: `evaluate_signal_result`, after upper-casing the signal, returns
`true` for `BUY` iff the price change is ≥ 0, for `SELL` iff it is ≤ 0, for
`HOLD` iff its absolute value is within `HOLD_TOLERANCE = 0.5`, and returns
`false` for every other signal, including a missing signal and `CLOSE`. -/
theorem evaluate_signal_result_characterization (sig : Option String) (pct : ℚ) :
    (evaluate_signal_result sig pct = true ↔
      ((upperStr (sig.getD "") = "BUY" ∧ 0 ≤ pct) ∨
       (upperStr (sig.getD "") = "SELL" ∧ pct ≤ 0) ∨
       (upperStr (sig.getD "") = "HOLD" ∧ |pct| ≤ HOLD_TOLERANCE))) ∧
    evaluate_signal_result none pct = false ∧
    evaluate_signal_result (some "CLOSE") pct = false := by
  refine ⟨?_, ?_, ?_⟩
  · unfold evaluate_signal_result
    dsimp only
    split_ifs with h1 h2 h3 <;> simp_all
  · unfold evaluate_signal_result
    have h : upperStr "" = "" := by decide
    simp [h]
  · unfold evaluate_signal_result
    have h : upperStr "CLOSE" = "CLOSE" := by decide
    simp [h]

/-- C8 (amended): under the repository's configs, where the default leverage
lies within `[leverage_min, leverage_max]`, `validate_and_correct_leverage`
always returns an integer within the bounds; a missing or non-convertible
leverage becomes the default, and an out-of-range integer is clamped to the
nearest bound. -/
theorem validate_leverage_range (lv : LevValue) (c : LevConfig)
    (h1 : c.leverage_min ≤ c.leverage_default) (h2 : c.leverage_default ≤ c.leverage_max) :
    (c.leverage_min ≤ validate_and_correct_leverage lv c ∧
      validate_and_correct_leverage lv c ≤ c.leverage_max) ∧
    validate_and_correct_leverage .missing c = c.leverage_default ∧
    validate_and_correct_leverage .bad c = c.leverage_default ∧
    (∀ z : ℤ, z < c.leverage_min → validate_and_correct_leverage (.val z) c = c.leverage_min) ∧
    (∀ z : ℤ, c.leverage_max < z → validate_and_correct_leverage (.val z) c = c.leverage_max) := by
  refine ⟨?_, rfl, rfl, ?_, ?_⟩
  · cases lv with
    | missing => simp [validate_and_correct_leverage]; omega
    | bad => simp [validate_and_correct_leverage]; omega
    | val z =>
        simp only [validate_and_correct_leverage]
        split_ifs <;> omega
  · intro z hz
    simp only [validate_and_correct_leverage]
    rw [if_pos (Or.inl hz)]
    omega
  · intro z hz
    simp only [validate_and_correct_leverage]
    rw [if_pos (Or.inr hz)]
    omega

/-- C8 counterexample: with `leverage_min = 1 ≤ leverage_max = 3` but a
default of 5, a missing leverage yields 5, outside the configured range, so
the claim's conclusion fails without the default-in-range hypothesis. -/
theorem validate_leverage_default_out_of_range :
    (⟨1, 3, 5⟩ : LevConfig).leverage_min ≤ (⟨1, 3, 5⟩ : LevConfig).leverage_max ∧
    validate_and_correct_leverage .missing ⟨1, 3, 5⟩ = 5 ∧
    ¬(validate_and_correct_leverage .missing ⟨1, 3, 5⟩ ≤ (⟨1, 3, 5⟩ : LevConfig).leverage_max) := by
  decide

/-- C8 witness: leverage 7 against bounds [1, 3] with default 2 is clamped
into range. -/
theorem validate_leverage_range_witness :
    (1 : ℤ) ≤ validate_and_correct_leverage (.val 7) ⟨1, 3, 2⟩ ∧
    validate_and_correct_leverage (.val 7) ⟨1, 3, 2⟩ ≤ 3 :=
  (validate_leverage_range (.val 7) ⟨1, 3, 2⟩ (by decide) (by decide)).1

/-- C10: starting from a history of at most 200 records,
`append_signal_record` leaves at most 200 records (dropping the oldest when
appending to a full history), and the published `analysis_records` web view
is the last 100 records, hence holds at most 100. -/
theorem append_signal_record_bounded (h : List SignalRecord) (d : SignalData) (p : ℚ)
    (ts : String) (hlen : h.length ≤ 200) :
    (append_signal_record h d p ts).2.1.length ≤ 200 ∧
    (append_signal_record h d p ts).2.2.length ≤ 100 ∧
    (h.length = 200 → (append_signal_record h d p ts).2.1 = h.drop 1 ++ [mkSignalRecord d p ts]) ∧
    (append_signal_record h d p ts).2.2 =
      (append_signal_record h d p ts).2.1.drop ((append_signal_record h d p ts).2.1.length - 100) := by
  unfold append_signal_record
  dsimp only
  refine ⟨?_, ?_, ?_, rfl⟩
  · split_ifs with hl
    · simp only [List.length_drop, List.length_append, List.length_singleton]
      omega
    · simp only [List.length_append, List.length_singleton] at *
      omega
  · split_ifs with hl <;> simp only [List.length_drop] <;> omega
  · intro h200
    rw [if_pos (by simp only [List.length_append, List.length_singleton]; omega)]
    rw [List.drop_append_of_le_length (by omega)]

/-- C10 witness: appending to an empty history stays within the 200-record
bound. -/
theorem append_signal_record_bounded_witness :
    (append_signal_record [] sampleSignalData 1 "t").2.1.length ≤ 200 :=
  (append_signal_record_bounded [] sampleSignalData 1 "t" (by decide)).1

/-- Evaluation of the sizing loop on the worked example's inputs: the code
computes usable margin 800 (80% of the balance, with no further buffer),
target margin 240, raw quantity 0.16, 16 contracts, margin 240, feasible. -/
lemma positionSuggestion_example_eval :
    positionSuggestion inpC2 (CONFIDENCE_RATIOS Conf.HIGH) 2 =
      { quantity := 4 / 25, contracts := 16, value := 480, margin := 240,
        meets_min := true, meets_margin := true, meets := true } := by
  have hc : (⌈(16 : ℚ) / 1⌉ : ℤ) = 16 := by rw [Int.ceil_eq_iff]; norm_num
  simp only [positionSuggestion, maxUsableMarginAnalysis, base_to_contracts, contracts_to_base,
    adjust_contract_quantity, inpC2, specStep1, CONFIDENCE_RATIOS]
  norm_num [hc]

/-- C2 counterexample: on the worked example's inputs the code computes
usable margin 800 (not 720), 16 contracts (not 15) and margin 240 (not 225):
the sizing loop applies no 0.9 buffer, so the claim's values are wrong. -/
theorem sizing_example_not_claim :
    maxUsableMarginAnalysis 1000 ≠ 720 ∧
    (positionSuggestion inpC2 (CONFIDENCE_RATIOS Conf.HIGH) 2).contracts ≠ 15 ∧
    (positionSuggestion inpC2 (CONFIDENCE_RATIOS Conf.HIGH) 2).margin ≠ 225 := by
  rw [positionSuggestion_example_eval]
  norm_num [maxUsableMarginAnalysis]

/-- C2 (amended): on the worked example — `min_contracts = 1`,
`contract_size = 0.01`, `step = 1`, `price = 3000`, `leverage = 2`,
HIGH-confidence ratio 0.30, `available_balance = 1000` — the sizing loop
computes `usable_margin = 1000 * 0.8 = 800` (no 0.9 buffer is applied at this
stage), `target_margin = 240`, raw quantity `0.16` base = 16 contracts,
rounds up to 16, recomputes margin `16 * 0.01 * 3000 / 2 = 240 ≤ 800`, and
marks the combination feasible with `quantity_contracts = 16`. -/
theorem sizing_example_values :
    maxUsableMarginAnalysis 1000 = 800 ∧
    maxUsableMarginAnalysis 1000 * CONFIDENCE_RATIOS Conf.HIGH = 240 ∧
    (positionSuggestion inpC2 (CONFIDENCE_RATIOS Conf.HIGH) 2).contracts = 16 ∧
    (positionSuggestion inpC2 (CONFIDENCE_RATIOS Conf.HIGH) 2).margin = 240 ∧
    (positionSuggestion inpC2 (CONFIDENCE_RATIOS Conf.HIGH) 2).margin ≤
      maxUsableMarginAnalysis 1000 ∧
    (positionSuggestion inpC2 (CONFIDENCE_RATIOS Conf.HIGH) 2).meets = true := by
  rw [positionSuggestion_example_eval]
  norm_num [maxUsableMarginAnalysis, CONFIDENCE_RATIOS]

lemma ceil_mul_div_self (q f : ℚ) (hf : f ≠ 0) (hint : ∃ z : ℤ, q * f = z) :
    ((⌈q * f⌉ : ℤ) : ℚ) / f = q := by
  obtain ⟨z, hz⟩ := hint
  rw [hz, Int.ceil_intCast, ← hz, mul_div_cancel_right₀ _ hf]

lemma ceil_div_zpow_int (c : ℤ) (p : ℤ) :
    ∃ w : ℤ, ((⌈(c : ℚ) * (10 : ℚ) ^ p⌉ : ℤ) : ℚ) / (10 : ℚ) ^ p = (w : ℚ) := by
  obtain ⟨n, rfl | rfl⟩ := p.eq_nat_or_neg
  · refine ⟨c, ?_⟩
    rw [zpow_natCast]
    have h1 : (c : ℚ) * (10 : ℚ) ^ n = ((c * 10 ^ n : ℤ) : ℚ) := by push_cast; ring
    rw [h1, Int.ceil_intCast]
    have h2 : ((10 : ℚ) ^ n) ≠ 0 := by positivity
    push_cast
    field_simp
  · refine ⟨⌈(c : ℚ) * (10 : ℚ) ^ (-(n : ℤ))⌉ * 10 ^ n, ?_⟩
    rw [zpow_neg, zpow_natCast, div_eq_mul_inv, inv_inv]
    push_cast
    ring

/-- C6 (amended): `adjust_contract_quantity` is idempotent for round-down
always, and for round-up whenever the explicit step is absent, zero, the
precision is absent, or the step is aligned to the precision grid
(`step * 10 ^ precision` an integer) — which covers every spec whose step is
derived from its precision.  A misaligned explicit step falsifies plain
idempotence (see the counterexample). -/
theorem adjust_contract_quantity_idempotent (spec : AmountSpec) (x : ℚ) (ru : Bool)
    (h : ru = true → ∀ s, spec.step = some s → s ≠ 0 → ∀ p, spec.precision = some p →
      ∃ z : ℤ, s * (10 : ℚ) ^ p = (z : ℚ)) :
    adjust_contract_quantity spec (adjust_contract_quantity spec x ru) ru =
      adjust_contract_quantity spec x ru := by
  have hten : ∀ p : ℤ, ((10 : ℚ) ^ p) ≠ 0 := fun p => zpow_ne_zero p (by norm_num)
  cases ru with
  | false =>
      cases hp : spec.precision with
      | none => simp [adjust_contract_quantity, hp]
      | some p =>
          simp only [adjust_contract_quantity, hp, Bool.false_eq_true, if_false]
          rw [div_mul_cancel₀ _ (hten p), Int.floor_intCast]
  | true =>
      cases hs : spec.step with
      | none =>
          cases hp : spec.precision with
          | none => simp [adjust_contract_quantity, hs, hp, Int.ceil_intCast]
          | some p =>
              simp only [adjust_contract_quantity, hs, hp, if_true]
              obtain ⟨w, hw⟩ := ceil_div_zpow_int ⌈x⌉ p
              rw [hw, Int.ceil_intCast]
              have hwf : (w : ℚ) * (10 : ℚ) ^ p = ((⌈(⌈x⌉ : ℚ) * (10 : ℚ) ^ p⌉ : ℤ) : ℚ) := by
                rw [← hw, div_mul_cancel₀ _ (hten p)]
              rw [ceil_mul_div_self _ _ (hten p) ⟨_, hwf⟩]
      | some s =>
          by_cases hs0 : s = 0
          · subst hs0
            cases hp : spec.precision with
            | none => simp [adjust_contract_quantity, hs, hp, Int.ceil_intCast]
            | some p =>
                simp only [adjust_contract_quantity, hs, hp, if_true, if_pos rfl]
                obtain ⟨w, hw⟩ := ceil_div_zpow_int ⌈x⌉ p
                rw [hw, Int.ceil_intCast]
                have hwf : (w : ℚ) * (10 : ℚ) ^ p = ((⌈(⌈x⌉ : ℚ) * (10 : ℚ) ^ p⌉ : ℤ) : ℚ) := by
                  rw [← hw, div_mul_cancel₀ _ (hten p)]
                rw [ceil_mul_div_self _ _ (hten p) ⟨_, hwf⟩]
          · cases hp : spec.precision with
            | none =>
                simp only [adjust_contract_quantity, hs, hp, if_true, if_neg hs0]
                rw [mul_div_cancel_right₀ _ hs0, Int.ceil_intCast]
            | some p =>
                obtain ⟨z0, hz0⟩ := h rfl s hs hs0 p hp
                simp only [adjust_contract_quantity, hs, hp, if_true, if_neg hs0]
                have hint1 : ∃ z : ℤ, ((⌈x / s⌉ : ℤ) : ℚ) * s * (10 : ℚ) ^ p = (z : ℚ) := by
                  refine ⟨⌈x / s⌉ * z0, ?_⟩
                  rw [mul_assoc, hz0]
                  push_cast
                  ring
                rw [ceil_mul_div_self _ _ (hten p) hint1]
                rw [mul_div_cancel_right₀ _ hs0, Int.ceil_intCast]
                rw [ceil_mul_div_self _ _ (hten p) hint1]

/-- C6 counterexample: with explicit step 0.25 and 1 decimal of precision,
round-up normalization maps 0.1 to 0.3 and 0.3 to 0.5, so normalizing an
already-normalized value is not a no-op. -/
theorem adjust_contract_quantity_not_idempotent :
    adjust_contract_quantity specMis (adjust_contract_quantity specMis (1 / 10) true) true ≠
      adjust_contract_quantity specMis (1 / 10) true := by
  have c1 : (⌈(2 : ℚ) / 5⌉ : ℤ) = 1 := by rw [Int.ceil_eq_iff]; norm_num
  have c2 : (⌈(5 : ℚ) / 2⌉ : ℤ) = 3 := by rw [Int.ceil_eq_iff]; norm_num
  have e1 : adjust_contract_quantity specMis (1 / 10) true = 3 / 10 := by
    simp only [adjust_contract_quantity, specMis]
    norm_num [c1, c2]
  rw [e1]
  have c3 : (⌈(6 : ℚ) / 5⌉ : ℤ) = 2 := by rw [Int.ceil_eq_iff]; norm_num
  have c4 : (⌈(5 : ℚ)⌉ : ℤ) = 5 := by rw [Int.ceil_eq_iff]; norm_num
  have e2 : adjust_contract_quantity specMis (3 / 10) true = 1 / 2 := by
    simp only [adjust_contract_quantity, specMis]
    norm_num [c3, c4]
  rw [e2]
  norm_num

/-- C6 witness: under the aligned spec (step 0.01, precision 2) round-up
normalization of 0.037 is idempotent. -/
theorem adjust_contract_quantity_idempotent_witness :
    adjust_contract_quantity specAligned
        (adjust_contract_quantity specAligned (37 / 1000) true) true =
      adjust_contract_quantity specAligned (37 / 1000) true := by
  refine adjust_contract_quantity_idempotent specAligned (37 / 1000) true ?_
  intro _ s hs hs0 p hp
  rw [show specAligned.step = some (1 / 100) from rfl] at hs
  rw [show specAligned.precision = some 2 from rfl] at hp
  cases hs
  cases hp
  exact ⟨1, by norm_num⟩


/-- C4: when no (confidence tier, leverage) combination of the full sizing
matrix is feasible, the pre-decision stage of `analyze_with_llm` returns the
HOLD fallback annotated `is_insufficient_balance` without calling the
language-model layer, and appends it to the signal history through
`append_signal_record` — the same function a normal decision is recorded
with. -/
theorem analyze_insufficient_balance_short_circuit (a : AnalyzeInput)
    (h : ∀ c ∈ [Conf.HIGH, Conf.MEDIUM, Conf.LOW], ∀ lev ∈ leverageList a,
      (positionSuggestion (sizingInputOf a) (CONFIDENCE_RATIOS c) lev).meets = false) :
    (analyzeSizingStage a).llmCalled = false ∧
    (analyzeSizingStage a).signal = some (insufficientBalanceSignal a) ∧
    (insufficientBalanceSignal a).signal = some "HOLD" ∧
    (insufficientBalanceSignal a).is_insufficient_balance = true ∧
    (analyzeSizingStage a).history =
      (append_signal_record a.history (insufficientBalanceSignal a) a.price a.timestamp).2.1 ∧
    (analyzeSizingStage a).webRecords =
      (append_signal_record a.history (insufficientBalanceSignal a) a.price a.timestamp).2.2 := by
  have hct : canTrade a = false := by
    unfold canTrade
    rw [List.any_eq_false]
    intro c hc
    rw [Bool.not_eq_true, List.any_eq_false]
    intro lev hlev
    rw [Bool.not_eq_true]
    exact h c hc lev hlev
  unfold analyzeSizingStage
  rw [hct]
  simp [insufficientBalanceSignal]

/-- C4 witness: with a 1 USDT balance no combination is feasible, so the
stage short-circuits to the insufficient-balance HOLD without consulting the
model. -/
theorem analyze_insufficient_balance_witness :
    (analyzeSizingStage inpC4).llmCalled = false ∧
    (analyzeSizingStage inpC4).signal = some (insufficientBalanceSignal inpC4) := by
  have hc1 : (⌈(1 : ℚ)⌉ : ℤ) = 1 := by rw [Int.ceil_eq_iff]; norm_num
  have hc2 : (⌈(1 : ℚ) / 1⌉ : ℤ) = 1 := by rw [Int.ceil_eq_iff]; norm_num
  have key := analyze_insufficient_balance_short_circuit inpC4 ?_
  · exact ⟨key.1, key.2.1⟩
  · intro c hc lev hlev
    fin_cases hc <;> fin_cases hlev <;>
      · simp only [positionSuggestion, maxUsableMarginAnalysis, base_to_contracts,
          contracts_to_base, adjust_contract_quantity, sizingInputOf, inpC4, specStep1,
          CONFIDENCE_RATIOS]
        norm_num [hc1, hc2]



/-- C3 (amended): the hard and soft cooldowns are evaluated before every
non-HOLD action, CLOSE included (the source comment at `deepseekok2.py` line
455 says so explicitly): a CLOSE with HIGH confidence against an open
position is rejected by the hard cooldown when the last trade was under 10
minutes ago, and is rejected by neither cooldown once at least 10 minutes
have passed (the soft cooldown passes because confidence is HIGH). -/
theorem close_high_cooldown (i : ExecInput) (dt : ℚ)
    (hsig : i.signal = "CLOSE") (hconf : i.confidence = "HIGH") (hpos : i.position.isSome)
    (hdt : i.minutesSinceLast = some dt) :
    (dt < 10 → (execute_trade i).tag = .hardCooldown ∧ (execute_trade i).orders = []) ∧
    (10 ≤ dt → (execute_trade i).tag ≠ .hardCooldown ∧ (execute_trade i).tag ≠ .softCooldown) := by
  have hg : guardReject i = if dt < 10 then some .hardCooldown else none := by
    unfold guardReject
    rw [hsig, hdt]
    simp [hconf]
  constructor
  · intro hlt
    unfold execute_trade
    rw [hg, if_pos hlt]
    exact ⟨rfl, rfl⟩
  · intro hge
    unfold execute_trade
    rw [hg, if_neg (not_lt.mpr hge)]
    have hup : upperStr i.signal = "CLOSE" := by rw [hsig]; decide
    rw [if_pos hup]
    obtain ⟨pos, hpos'⟩ := Option.isSome_iff_exists.mp hpos
    unfold closePath
    rw [hpos']
    split_ifs <;> simp [apply_ite ExecOutcome.tag]
    constructor <;> split_ifs <;> simp

/-- C3 counterexample: a CLOSE with HIGH confidence against an open
position, 5 minutes after the previous trade, is rejected by the hard
cooldown — contradicting the claim that CLOSE is never rejected by a
cooldown guard. -/
theorem close_high_cooldown_counterexample :
    (execute_trade execInputC3).tag = .hardCooldown ∧ (execute_trade execInputC3).orders = [] :=
  (close_high_cooldown execInputC3 5 rfl rfl (by decide) rfl).1 (by norm_num)

/-- C3 witness: the same CLOSE 15 minutes after the previous trade passes
both cooldown guards. -/
theorem close_high_cooldown_witness :
    (execute_trade { execInputC3 with minutesSinceLast := some 15 }).tag ≠ .hardCooldown ∧
    (execute_trade { execInputC3 with minutesSinceLast := some 15 }).tag ≠ .softCooldown :=
  (close_high_cooldown _ 15 rfl rfl (by decide) rfl).2 (by norm_num)

lemma guardReject_cooldown_only (i : ExecInput) (t : ExitTag) (hg : guardReject i = some t) :
    t = .hardCooldown ∨ t = .softCooldown ∨ t = .whipsaw := by
  unfold guardReject at hg
  split at hg
  · exact absurd hg (by simp)
  · split at hg
    · exact absurd hg (by simp)
    · split at hg
      · cases hg
        simp
      · split at hg
        · cases hg
          simp
        · split at hg
          · split at hg
            · split_ifs at hg <;> injection hg with hh <;> subst hh <;> simp
            · exact absurd hg (by simp)
          · exact absurd hg (by simp)

/-- C7: a CLOSE signal with confidence other than HIGH while a position is
open is rejected: no order is submitted (whether the cooldown guards or the
confidence gate fire) and the outcome is never the executed close. -/
theorem close_low_confidence_rejected (i : ExecInput)
    (hsig : i.signal = "CLOSE") (hconf : i.confidence ≠ "HIGH") (hpos : i.position.isSome) :
    (execute_trade i).orders = [] ∧ (execute_trade i).tag ≠ .closed := by
  unfold execute_trade
  cases hg : guardReject i with
  | some t =>
      refine ⟨rfl, ?_⟩
      rcases guardReject_cooldown_only i t hg with h | h | h <;> subst h <;> simp
  | none =>
      have hup : upperStr i.signal = "CLOSE" := by rw [hsig]; decide
      rw [if_pos hup]
      obtain ⟨pos, hpos'⟩ := Option.isSome_iff_exists.mp hpos
      simp [closePath, hpos', hconf]


/-- C7 witness: a MEDIUM-confidence CLOSE against an open long position
submits nothing. -/
theorem close_low_confidence_rejected_witness :
    (execute_trade execInputC7).orders = [] ∧ (execute_trade execInputC7).tag ≠ .closed :=
  close_low_confidence_rejected execInputC7 rfl (by decide) (by decide)

lemma submitPhase_buy_short (i : ExecInput) (pos : Position) (lev mum freshM tc req : ℚ)
    (hsig : i.signal = "BUY") (hpos : i.position = some pos) (hside : pos.side = Side.short) :
    (submitPhase i lev mum freshM tc req).orders =
      [⟨.buy, pos.size, true⟩, ⟨.buy, tc, false⟩] ∧
    (submitPhase i lev mum freshM tc req).tradeContracts = tc := by
  unfold submitPhase
  simp [hsig, hpos, hside]

lemma secondPhase_buy_short (i : ExecInput) (pos : Position) (lev minC minQ mum tc req : ℚ)
    (hsig : i.signal = "BUY") (hpos : i.position = some pos) (hside : pos.side = Side.short)
    (himg : isAdjustImage i.spec tc)
    (hsub : (secondPhase i lev minC minQ mum tc req).tag = .submitted) :
    (secondPhase i lev minC minQ mum tc req).orders =
      [⟨.buy, pos.size, true⟩,
       ⟨.buy, (secondPhase i lev minC minQ mum tc req).tradeContracts, false⟩] ∧
    isAdjustImage i.spec (secondPhase i lev minC minQ mum tc req).tradeContracts := by
  simp only [secondPhase] at hsub ⊢
  split_ifs at hsub ⊢ <;> first
    | exact absurd hsub (by simp)
    | exact ⟨by simp [submitPhase, hsig, hpos, hside], ⟨_, rfl⟩⟩
    | exact ⟨by simp [submitPhase, hsig, hpos, hside], himg⟩

set_option maxHeartbeats 2000000 in
lemma afterMinFloor_buy_short (i : ExecInput) (pos : Position) (lev minC minQ mum tc1 : ℚ)
    (hsig : i.signal = "BUY") (hpos : i.position = some pos) (hside : pos.side = Side.short)
    (hsub : (afterMinFloor i lev minC minQ mum tc1).tag = .submitted) :
    (afterMinFloor i lev minC minQ mum tc1).orders =
      [⟨.buy, pos.size, true⟩,
       ⟨.buy, (afterMinFloor i lev minC minQ mum tc1).tradeContracts, false⟩] ∧
    isAdjustImage i.spec (afterMinFloor i lev minC minQ mum tc1).tradeContracts := by
  simp only [afterMinFloor] at hsub ⊢
  split_ifs at hsub ⊢ <;> first
    | exact absurd hsub (by simp)
    | exact secondPhase_buy_short i pos lev minC minQ mum _ _ hsig hpos hside ⟨_, rfl⟩ hsub

set_option maxHeartbeats 2000000 in
lemma mainPath_buy_short (i : ExecInput) (pos : Position)
    (hsig : i.signal = "BUY") (hpos : i.position = some pos) (hside : pos.side = Side.short)
    (hsub : (mainPath i).tag = .submitted) :
    (mainPath i).orders =
      [⟨.buy, pos.size, true⟩, ⟨.buy, (mainPath i).tradeContracts, false⟩] ∧
    isAdjustImage i.spec (mainPath i).tradeContracts := by
  simp only [mainPath] at hsub ⊢
  split_ifs at hsub ⊢ <;> first
    | exact absurd hsub (by simp)
    | exact afterMinFloor_buy_short i pos _ _ _ _ _ hsig hpos hside hsub

/-- C5: whenever `execute_trade` reaches order submission on a BUY signal
while a short position is held, it issues exactly two orders, in order: a
reduce-only market buy for the full existing short size, then a market buy
opening the long at the engine's normalized target contract quantity (a
round-up image of the quantity normalizer). -/
theorem execute_buy_short_two_orders (i : ExecInput) (pos : Position)
    (hsig : i.signal = "BUY") (hpos : i.position = some pos) (hside : pos.side = Side.short)
    (hsub : (execute_trade i).tag = .submitted) :
    (execute_trade i).orders =
      [⟨.buy, pos.size, true⟩, ⟨.buy, (execute_trade i).tradeContracts, false⟩] ∧
    isAdjustImage i.spec (execute_trade i).tradeContracts := by
  unfold execute_trade at hsub ⊢
  revert hsub
  cases hg : guardReject i with
  | some t =>
      intro hsub
      simp only at hsub
      subst hsub
      rcases guardReject_cooldown_only i _ hg with h | h | h <;> simp at h
  | none =>
      intro hsub
      rw [hsig] at hsub ⊢
      simp only [show upperStr "BUY" = "BUY" from by decide] at hsub ⊢
      simp only [show (("BUY" : String) = "CLOSE") = False from by simp,
        show (("BUY" : String) = "HOLD") = False from by simp, if_false] at hsub ⊢
      split_ifs at hsub ⊢
      first
        | exact absurd hsub (by simp)
        | exact mainPath_buy_short i pos hsig hpos hside hsub


set_option maxHeartbeats 2000000 in
/-- C5 witness: a BUY with HIGH confidence against a held short of 3
contracts passes every check and issues exactly the reduce-only close of the
full short followed by the opening buy of the normalized 16 contracts. -/
theorem execute_buy_short_two_orders_witness :
    (execute_trade execInputC5).tag = .submitted ∧
    (execute_trade execInputC5).orders =
      [⟨.buy, 3, true⟩, ⟨.buy, (execute_trade execInputC5).tradeContracts, false⟩] ∧
    isAdjustImage execInputC5.spec (execute_trade execInputC5).tradeContracts := by
  have hc1 : (⌈(1 : ℚ)⌉ : ℤ) = 1 := by rw [Int.ceil_eq_iff]; norm_num
  have hc2 : (⌈(153 : ℚ) / 10⌉ : ℤ) = 16 := by rw [Int.ceil_eq_iff]; norm_num
  have hc3 : (⌈(16 : ℚ)⌉ : ℤ) = 16 := by rw [Int.ceil_eq_iff]; norm_num
  have hev : (execute_trade execInputC5).tag = .submitted := by
    simp only [execute_trade, guardReject, closePath, mainPath, afterMinFloor, secondPhase,
      submitPhase, usableMargin, confRatioExec, base_to_contracts, contracts_to_base,
      adjust_contract_quantity, execInputC5, baseExecInput, specStep1,
      MAX_TOTAL_MARGIN_RATIO, MARGIN_SAFETY_BUFFER]
    norm_num [hc1, hc2, hc3, show upperStr "BUY" = "BUY" from by decide]
    simp
  have h := execute_buy_short_two_orders execInputC5 ⟨.short, 3, 2⟩ rfl rfl rfl hev
  exact ⟨hev, h.1, h.2⟩


set_option maxHeartbeats 2000000 in
/-- C1: a run of `execute_trade` in which the first margin snapshot is ample
(usable 76.5 USDT) but the fresh pre-submission snapshot is nearly empty
(usable 0.765 USDT): the second check fails, the 95%-discount downsize is
clamped up to the one-contract minimum without being re-validated, and the
engine submits an order requiring 15 USDT of margin — exceeding the second
snapshot's usable margin, contrary to the invariant. -/
theorem margin_recheck_violated :
    execute_trade execInputC1 =
      { tag := .submitted, orders := [⟨.buy, 1, false⟩], tradeContracts := 1,
        requiredMargin := 15, freshMargin := 153 / 200 } ∧
    (execute_trade execInputC1).freshMargin < (execute_trade execInputC1).requiredMargin := by
  have hc1 : (⌈(1 : ℚ)⌉ : ℤ) = 1 := by rw [Int.ceil_eq_iff]; norm_num
  have hc2 : (⌈(153 : ℚ) / 100⌉ : ℤ) = 2 := by rw [Int.ceil_eq_iff]; norm_num
  have hc3 : (⌈(2 : ℚ)⌉ : ℤ) = 2 := by rw [Int.ceil_eq_iff]; norm_num
  have hev : execute_trade execInputC1 =
      { tag := .submitted, orders := [⟨.buy, 1, false⟩], tradeContracts := 1,
        requiredMargin := 15, freshMargin := 153 / 200 } := by
    simp only [execute_trade, guardReject, closePath, mainPath, afterMinFloor, secondPhase,
      submitPhase, usableMargin, confRatioExec, base_to_contracts, contracts_to_base,
      adjust_contract_quantity, execInputC1, baseExecInput, specStep1,
      MAX_TOTAL_MARGIN_RATIO, MARGIN_SAFETY_BUFFER]
    norm_num [hc1, hc2, hc3, show upperStr "BUY" = "BUY" from by decide]
    simp
  rw [hev]
  norm_num
